import Mathlib

/-!
Verification development for the mbimcli phonebook CLI module
(src/cli/mbimcli-phonebook.c).

The module is a single-in-flight asynchronous command dispatcher: the
CLI option state selects one of six phonebook actions, a request is
built and submitted to the device transport with a fixed timeout, and a
completion handler decodes the response, prints a rendering and
finalizes the process with a boolean outcome.

The embedding below is shallow: the C option globals become a record,
the cached selector becomes an explicit state-passing function, glib
string splitting and C `atoi` are modelled directly over character
lists, and all side effects (prints, `exit`, reference counting,
`mbimcli_async_operation_done`) are reified into an `Event` trace.
-/

/-- Phonebook CLI option globals (the static option variables filled by
the GOption entries): a flag, an int index, a flag, two option strings,
an int index, and a flag, in source order. -/
structure PhonebookOptions where
  configuration_flag : Bool
  read_index : Int
  read_all_flag : Bool
  write_str : Option String
  entry_update_str : Option String
  delete_index : Int
  delete_all_flag : Bool
deriving Repr, DecidableEq

/-- Default option state: all flags cleared, indices 0, strings absent
(the initial values of the C static variables). -/
def defaultOptions : PhonebookOptions :=
  ⟨false, 0, false, none, none, 0, false⟩

/-- Protocol read/delete filter flag (MbimPhonebookFlag). -/
inductive MbimPhonebookFlag where
  | all
  | index
deriving Repr, DecidableEq

/-- Protocol write flag (MbimPhonebookWriteFlag). -/
inductive MbimPhonebookWriteFlag where
  | saveUnused
  | saveIndex
deriving Repr, DecidableEq

/-- Protocol-level request value built by the request constructors of
the codec library, as invoked from `mbimcli_phonebook_run`. -/
inductive Request where
  | configurationQuery
  | readQuery (flag : MbimPhonebookFlag) (index : Int)
  | deleteSet (flag : MbimPhonebookFlag) (index : Int)
  | writeSet (flag : MbimPhonebookWriteFlag) (index : Int) (number : String) (name : String)
deriving Repr, DecidableEq

/-- The four completion callbacks registered with `mbim_device_command`. -/
inductive Callback where
  | configurationReady
  | readReady
  | deleteReady
  | writeReady
deriving Repr, DecidableEq

/-- Reified side effects of the module: prints to stderr and stdout,
process abort, GObject reference operations on the device and the
cancellable, and the final `mbimcli_async_operation_done` call. -/
inductive Event where
  | printErr (msg : String)
  | printOut (msg : String)
  | exitFailure
  | refDevice
  | refCancellable
  | unrefDevice
  | unrefCancellable
  | operationDone (status : Bool)
deriving Repr, DecidableEq

/-- Error message printed by the selector when more than one action is
requested. -/
def tooManyActionsMsg : String := "error: too many phonebook actions requested\n"

/-- Error message printed by the input parser on too many fields. -/
def tooManyArgsMsg : String := "error: couldn't parse input string, too many arguments\n"

/-- Error message printed by the input parser on too few fields. -/
def missingArgsMsg : String := "error: couldn't parse input string, missing arguments\n"

/-- Transport-failure message: `error: operation failed: %s`. -/
def transportErrMsg (m : String) : String := "error: operation failed: " ++ m ++ "\n"

/-- Response-parse-failure message: `error: couldn't parse response message: %s`. -/
def parseErrMsg (m : String) : String := "error: couldn't parse response message: " ++ m ++ "\n"

/-- Success confirmation printed by the write/update completion handler. -/
def writeOkMsg : String := "Phonebook entry successfully written/updated\n"

/-- Success confirmation printed by the delete completion handler (the
source prints it without a trailing newline). -/
def deleteOkMsg : String := "Phonebook entry/entries successfully deleted"

/-- Header printed by the read completion handler. -/
def readOkMsg : String := "Successfully read phonebook entry/entries\n"

/-- Entry-count line of the read rendering. -/
def countLine (entry_count : Nat) : String :=
  "\tPhonebook entries count: " ++ toString entry_count ++ "\n"

/-- One decoded phonebook entry (MbimPhonebookEntry). -/
structure PhonebookEntry where
  entry_index : Nat
  number : String
  name : String
deriving Repr, DecidableEq, Inhabited

/-- Rendering of one phonebook entry (the per-iteration g_print of the
read handler loop). -/
def renderEntry (e : PhonebookEntry) : String :=
  "\tEntry index : " ++ toString e.entry_index ++ " \n\t      Number: " ++
    e.number ++ " \n\t        Name: " ++ e.name ++ " \n"

/-- Decoded phonebook configuration response
(mbim_message_phonebook_configuration_response_parse out-parameters). -/
structure PhonebookConfiguration where
  state : Nat
  number_of_entries : Nat
  used_entries : Nat
  max_number_length : Nat
  max_name : Nat
deriving Repr, DecidableEq

/-- VALIDATE_UNKNOWN macro: a null state label is rendered as the
literal word `unknown`. -/
def validateUnknown (s : Option String) : String :=
  match s with
  | some str => str
  | none => "unknown"

/-- Rendering of the configuration response, with the (already
validated) state label spliced in. -/
def configText (stateStr : String) (cfg : PhonebookConfiguration) : String :=
  "\n Phonebook configuration retrived... \n\t   Phonebook state: " ++ stateStr ++
    " \n\t Number of entries: " ++ toString cfg.number_of_entries ++
    " \n\t      used entries: " ++ toString cfg.used_entries ++
    " \n\t max number length: " ++ toString cfg.max_number_length ++
    " \n\t         max name : " ++ toString cfg.max_name ++ " \n"

/-- Indicator bit of one action input, as C sums gbooleans and
double-negated values. -/
def b2n (b : Bool) : Nat := if b then 1 else 0

/-- Number of phonebook actions requested, in the exact source order:
`configuration_flag + !!read_index + read_all_flag + !!write_str +
!!entry_update_str + !!delete_index + delete_all_flag`. -/
def countActions (o : PhonebookOptions) : Nat :=
  b2n o.configuration_flag + b2n (o.read_index != 0) + b2n o.read_all_flag +
    b2n o.write_str.isSome + b2n o.entry_update_str.isSome +
    b2n (o.delete_index != 0) + b2n o.delete_all_flag

/-- The static locals of `mbimcli_phonebook_options_enabled`
(`n_actions` and `checked`). -/
structure SelectorState where
  n_actions : Nat
  checked : Bool
deriving Repr, DecidableEq

/-- Initial selector state: `n_actions = 0`, `checked = FALSE`. -/
def initSelectorState : SelectorState := ⟨0, false⟩

/-- Outcome of one call to the selector: either the process aborts
(`exit (EXIT_FAILURE)` after printing the error) or the call returns an
enabled/disabled boolean together with the updated static state and the
effects it produced. -/
inductive SelectorResult where
  | fatal (events : List Event)
  | ok (enabled : Bool) (st : SelectorState) (events : List Event)
deriving Repr, DecidableEq

/-- mbimcli_phonebook_options_enabled: if already checked, return the
cached truth of `n_actions`; otherwise count the set action inputs,
abort on more than one, and cache the count. -/
def mbimcli_phonebook_options_enabled (o : PhonebookOptions) (st : SelectorState) :
    SelectorResult :=
  if st.checked then
    .ok (st.n_actions != 0) st []
  else if countActions o > 1 then
    .fatal [.printErr tooManyActionsMsg, .exitFailure]
  else
    .ok (countActions o != 0) ⟨countActions o, true⟩ []

/-- context_free: unref the cancellable when one is held, then unref the
device (the slice free itself has no observable event). -/
def context_free (present : Bool) : List Event :=
  (if present then [Event.unrefCancellable] else []) ++ [Event.unrefDevice]

/-- shutdown: free the context and signal
`mbimcli_async_operation_done` with the operation status. -/
def shutdown (present : Bool) (status : Bool) : List Event :=
  context_free present ++ [Event.operationDone status]

/-- Modelled from the spec: `g_strsplit (str, ",", -1)` from glib (not
part of this repository). Splits on every comma, keeping empty tokens;
splitting the empty string yields the empty vector. -/
def splitCommaAux : List Char → List Char → List String
  | [], acc => [String.mk acc.reverse]
  | c :: rest, acc =>
    if c == ',' then String.mk acc.reverse :: splitCommaAux rest []
    else splitCommaAux rest (c :: acc)

/-- Modelled from the spec: glib comma splitting over a whole string;
the empty string is the special case producing no fields. -/
def g_strsplit (s : String) : List String :=
  if s == "" then [] else splitCommaAux s.data []

/-- The two input-parse failure kinds. -/
inductive InputParseError where
  | tooMany
  | missing
deriving Repr, DecidableEq

/-- The three out-parameters of a successful input parse. -/
structure ParsedInput where
  name : String
  number : String
  index_str : Option String
deriving Repr, DecidableEq

/-- phonebook_write_input_parse: split the option string on commas; too
many fields or too few fields fail with the corresponding printed
error; otherwise the first field is the name, the second the number,
and the third (when present) the index string. The C g_asserts on
`n_expected` are carried as theorem preconditions. -/
def phonebook_write_input_parse (n_expected : Nat) (str : String) :
    Except (InputParseError × String) ParsedInput :=
  if (g_strsplit str).length > n_expected then
    .error (.tooMany, tooManyArgsMsg)
  else if (g_strsplit str).length < n_expected then
    .error (.missing, missingArgsMsg)
  else
    .ok ⟨(g_strsplit str).getD 0 "", (g_strsplit str).getD 1 "", (g_strsplit str)[2]?⟩

/-- C `isspace` for the default locale: space, tab, newline, vertical
tab, form feed, carriage return. -/
def cIsSpace (c : Char) : Bool :=
  c == ' ' || c == '\t' || c == '\n' || c == '\x0b' || c == '\x0c' || c == '\r'

/-- Decimal value of a digit run. -/
def digitsVal (l : List Char) : Nat :=
  l.foldl (fun a c => 10 * a + (c.toNat - 48)) 0

/-- Sign consumed by C `atoi` after whitespace: `true` for a leading
minus; the remainder is what follows the optional sign. -/
def atoiSign (l : List Char) : Bool × List Char :=
  match l with
  | [] => (false, [])
  | c :: rest =>
    if c == '-' then (true, rest)
    else if c == '+' then (false, rest)
    else (false, c :: rest)

/-- Digit prefix that `atoi` consumes: after whitespace and an optional
sign, the longest run of decimal digits. -/
def numericPart (s : String) : List Char :=
  (atoiSign (s.data.dropWhile cIsSpace)).2.takeWhile Char.isDigit

/-- Modelled from the spec: C `atoi` — skip whitespace, read an
optional sign and the longest digit prefix; no digits yields 0.
(`atoi` is libc, not part of this repository.) -/
def atoi (s : String) : Int :=
  if (atoiSign (s.data.dropWhile cIsSpace)).1 then
    - Int.ofNat (digitsVal (numericPart s))
  else
    Int.ofNat (digitsVal (numericPart s))

/-- A string whose atoi digit prefix is empty (no usable digits). -/
def nonNumeric (s : String) : Prop := numericPart s = []

instance (s : String) : Decidable (nonNumeric s) := by
  unfold nonNumeric
  infer_instance

/-- One submitted device command: the request, the fixed timeout, the
cancellable passed along, and the single registered completion
callback. -/
structure Submission where
  req : Request
  timeout : Nat
  cancellable : Bool
  cb : Callback
deriving Repr, DecidableEq

/-- Result of `mbimcli_phonebook_run`: a single submission, an early
shutdown on input-parse failure (carrying the printed message), or the
unreachable no-action fallthrough (`g_warn_if_reached`). -/
inductive RunResult where
  | submit (s : Submission)
  | parseFailed (msg : String)
  | noAction
deriving Repr, DecidableEq

/-- mbimcli_phonebook_run: select the branch in source order
(configuration, read by index, read all, delete by index, delete all,
write, update) and build the corresponding request; the write and
update branches first run the input parser and shut down with failure
when it fails; the update branch converts the third field with atoi. -/
def mbimcli_phonebook_run (o : PhonebookOptions) (present : Bool) : RunResult :=
  if o.configuration_flag then
    .submit ⟨.configurationQuery, 10, present, .configurationReady⟩
  else if o.read_index != 0 then
    .submit ⟨.readQuery .index o.read_index, 10, present, .readReady⟩
  else if o.read_all_flag then
    .submit ⟨.readQuery .all 0, 10, present, .readReady⟩
  else if o.delete_index != 0 then
    .submit ⟨.deleteSet .index o.delete_index, 10, present, .deleteReady⟩
  else if o.delete_all_flag then
    .submit ⟨.deleteSet .all 0, 10, present, .deleteReady⟩
  else
    match o.write_str with
    | some s =>
      match phonebook_write_input_parse 2 s with
      | .error e => .parseFailed e.2
      | .ok p => .submit ⟨.writeSet .saveUnused 0 p.number p.name, 10, present, .writeReady⟩
    | none =>
      match o.entry_update_str with
      | some s =>
        match phonebook_write_input_parse 3 s with
        | .error e => .parseFailed e.2
        | .ok p =>
          .submit ⟨.writeSet .saveIndex (atoi (p.index_str.getD "")) p.number p.name,
            10, present, .writeReady⟩
      | none => .noAction

/-- Resolved completion of a submitted command, as seen by a ready
handler: `mbim_device_command_finish` returned no response (transport
error), the response failed protocol parsing, or parsing produced a
payload. -/
inductive Completion (α : Type) where
  | transportError (msg : String)
  | parseError (msg : String)
  | ok (payload : α)

/-- set_phonebook_write_ready: print the failure or the confirmation
and shut down with the corresponding status. -/
def set_phonebook_write_ready (present : Bool) : Completion Unit → List Event
  | .transportError m => .printErr (transportErrMsg m) :: shutdown present false
  | .parseError m => .printErr (parseErrMsg m) :: shutdown present false
  | .ok _ => .printOut writeOkMsg :: shutdown present true

/-- set_phonebook_delete_ready: print the failure or the confirmation
and shut down with the corresponding status. -/
def set_phonebook_delete_ready (present : Bool) : Completion Unit → List Event
  | .transportError m => .printErr (transportErrMsg m) :: shutdown present false
  | .parseError m => .printErr (parseErrMsg m) :: shutdown present false
  | .ok _ => .printOut deleteOkMsg :: shutdown present true

/-- The read handler loop: `for (i = 0; i < entry_count; i++)` printing
the entry at array position `i`. -/
def printEntriesLoop (entries : List PhonebookEntry) (entry_count : Nat) : List Event :=
  (List.range entry_count).map fun i =>
    Event.printOut (renderEntry (entries.getD i default))

/-- query_phonebook_read_ready: on failure print and shut down with
failure; on success print the header, the entry count, then each entry
in array order, and shut down with success. -/
def query_phonebook_read_ready (present : Bool) :
    Completion (Nat × List PhonebookEntry) → List Event
  | .transportError m => .printErr (transportErrMsg m) :: shutdown present false
  | .parseError m => .printErr (parseErrMsg m) :: shutdown present false
  | .ok payload =>
    Event.printOut readOkMsg :: Event.printOut (countLine payload.1) ::
      (printEntriesLoop payload.2 payload.1 ++ shutdown present true)

/-- query_phonebook_configuration_ready: on failure print and shut down
with failure; on success look up the state label
(`mbim_phonebook_state_get_string`, passed in as `lookup`), substitute
`unknown` for a null label, print the configuration rendering, and shut
down with success. -/
def query_phonebook_configuration_ready (lookup : Nat → Option String) (present : Bool) :
    Completion PhonebookConfiguration → List Event
  | .transportError m => .printErr (transportErrMsg m) :: shutdown present false
  | .parseError m => .printErr (parseErrMsg m) :: shutdown present false
  | .ok cfg =>
    Event.printOut (configText (validateUnknown (lookup cfg.state)) cfg) ::
      shutdown present true

/-- Modelled from the spec: the enclosing mbimcli driver (not under
src/) consults `mbimcli_phonebook_options_enabled` once and invokes
`mbimcli_phonebook_run` only when the selector reports an action
enabled; a fatal selector result aborts the process before any device
interaction. -/
def phonebookMain (o : PhonebookOptions) (present : Bool) :
    List Event × Option RunResult :=
  match mbimcli_phonebook_options_enabled o initSelectorState with
  | .fatal evs => (evs, none)
  | .ok enabled _ evs =>
    if enabled then (evs, some (mbimcli_phonebook_run o present)) else (evs, none)

/-- The submission, if any, produced by a driver run. -/
def submissionOfMain : List Event × Option RunResult → Option Submission
  | (_, some (.submit s)) => some s
  | _ => none

/-- Payload type decoded by each callback. -/
def callbackPayload : Callback → Type
  | .configurationReady => PhonebookConfiguration
  | .readReady => Nat × List PhonebookEntry
  | .deleteReady => Unit
  | .writeReady => Unit

/-- Dispatch a completion to the handler registered for the callback. -/
def invokeCallback (lookup : Nat → Option String) (present : Bool) :
    (cb : Callback) → Completion (callbackPayload cb) → List Event
  | .configurationReady, c => query_phonebook_configuration_ready lookup present c
  | .readReady, c => query_phonebook_read_ready present c
  | .deleteReady, c => set_phonebook_delete_ready present c
  | .writeReady, c => set_phonebook_write_ready present c

/-- References acquired at the top of `mbimcli_phonebook_run`: a device
reference always, a cancellable reference when one was supplied. -/
def acquireEvents (present : Bool) : List Event :=
  Event.refDevice :: (if present then [Event.refCancellable] else [])

/-- Complete event trace of one operation: acquire the references, run
the dispatcher, and on a submission deliver the transport completion to
the registered handler. -/
def fullTrace (lookup : Nat → Option String) (o : PhonebookOptions) (present : Bool)
    (c : (cb : Callback) → Completion (callbackPayload cb)) : List Event :=
  acquireEvents present ++
    match mbimcli_phonebook_run o present with
    | .submit s => invokeCallback lookup present s.cb (c s.cb)
    | .parseFailed m => Event.printErr m :: shutdown present false
    | .noAction => []

/-- Status carried by an `operationDone` event, if any. -/
def doneOf : Event → Option Bool
  | .operationDone b => some b
  | _ => none

/-- Statuses passed to `mbimcli_async_operation_done` within a trace. -/
def doneStatuses (evs : List Event) : List Bool :=
  evs.filterMap doneOf

/-- Discriminator for the device-reference acquisition event. -/
def isRefDevice : Event → Bool
  | .refDevice => true
  | _ => false

/-- Discriminator for the device-reference release event. -/
def isUnrefDevice : Event → Bool
  | .unrefDevice => true
  | _ => false

/-- Discriminator for the cancellable-reference acquisition event. -/
def isRefCancellable : Event → Bool
  | .refCancellable => true
  | _ => false

/-- Discriminator for the cancellable-reference release event. -/
def isUnrefCancellable : Event → Bool
  | .unrefCancellable => true
  | _ => false

/-- Number of events in a trace satisfying a discriminator. -/
def countEv (p : Event → Bool) (evs : List Event) : Nat :=
  evs.countP p

/-- Option state selecting only the configuration query. -/
def confOnly : PhonebookOptions := { defaultOptions with configuration_flag := true }

/-- Option state selecting only a read by index. -/
def readOnly (i : Int) : PhonebookOptions := { defaultOptions with read_index := i }

/-- Option state selecting only the read-all action. -/
def readAllOnly : PhonebookOptions := { defaultOptions with read_all_flag := true }

/-- Option state selecting only a delete by index. -/
def deleteOnly (i : Int) : PhonebookOptions := { defaultOptions with delete_index := i }

/-- Option state selecting only the delete-all action. -/
def deleteAllOnly : PhonebookOptions := { defaultOptions with delete_all_flag := true }

/-- Option state selecting only a write. -/
def writeOnly (s : String) : PhonebookOptions := { defaultOptions with write_str := some s }

/-- Option state selecting only an entry update. -/
def updateOnly (s : String) : PhonebookOptions :=
  { defaultOptions with entry_update_str := some s }

/-! Helper lemmas shared by the claim proofs. -/

theorem doneStatuses_append (a b : List Event) :
    doneStatuses (a ++ b) = doneStatuses a ++ doneStatuses b := by
  simp [doneStatuses]

theorem doneStatuses_shutdown (present st : Bool) :
    doneStatuses (shutdown present st) = [st] := by
  cases present <;> simp [shutdown, context_free, doneStatuses, doneOf]

theorem doneStatuses_printEntriesLoop (entries : List PhonebookEntry) (n : Nat) :
    doneStatuses (printEntriesLoop entries n) = [] := by
  unfold printEntriesLoop doneStatuses
  generalize List.range n = l
  induction l with
  | nil => rfl
  | cons a l ih => simp [doneOf, ih]

theorem countEv_append (p : Event → Bool) (a b : List Event) :
    countEv p (a ++ b) = countEv p a + countEv p b := by
  simp [countEv]

theorem countEv_printEntriesLoop (p : Event → Bool)
    (hp : ∀ s, p (Event.printOut s) = false)
    (entries : List PhonebookEntry) (n : Nat) :
    countEv p (printEntriesLoop entries n) = 0 := by
  unfold printEntriesLoop countEv
  generalize List.range n = l
  induction l with
  | nil => rfl
  | cons a l ih => simp [List.countP_cons, hp, ih]

theorem atoi_eq_zero_of_nonNumeric (s : String) (h : nonNumeric s) : atoi s = 0 := by
  unfold nonNumeric at h
  simp [atoi, h, digitsVal]

theorem countActions_eq_zero_of_noAction (o : PhonebookOptions) (present : Bool)
    (h : mbimcli_phonebook_run o present = .noAction) : countActions o = 0 := by
  unfold mbimcli_phonebook_run at h
  by_cases h1 : o.configuration_flag = true
  · rw [if_pos h1] at h; exact absurd h (by simp)
  · rw [if_neg h1] at h
    by_cases h2 : (o.read_index != 0) = true
    · rw [if_pos h2] at h; exact absurd h (by simp)
    · rw [if_neg h2] at h
      by_cases h3 : o.read_all_flag = true
      · rw [if_pos h3] at h; exact absurd h (by simp)
      · rw [if_neg h3] at h
        by_cases h4 : (o.delete_index != 0) = true
        · rw [if_pos h4] at h; exact absurd h (by simp)
        · rw [if_neg h4] at h
          by_cases h5 : o.delete_all_flag = true
          · rw [if_pos h5] at h; exact absurd h (by simp)
          · rw [if_neg h5] at h
            split at h
            · split at h <;> exact absurd h (by simp)
            · split at h
              · split at h <;> exact absurd h (by simp)
              · simp_all [countActions, b2n]

/-! Claim theorems. -/

/-- C10: an invocation whose only supplied options are a read-by-index
or delete-by-index with index value 0 is treated as if no action were
requested: the selector counts a zero index as unset and reports no
action, and the dispatcher submits no request for it. -/
theorem claim_C10_zero_index_counts_as_unset :
    countActions { defaultOptions with read_index := 0, delete_index := 0 } = 0 ∧
    mbimcli_phonebook_options_enabled
        { defaultOptions with read_index := 0, delete_index := 0 }
        initSelectorState = .ok false ⟨0, true⟩ [] ∧
    ∀ present,
      mbimcli_phonebook_run { defaultOptions with read_index := 0, delete_index := 0 }
        present = .noAction := by
  refine ⟨by decide, by decide, fun present => rfl⟩

/-- C8: the selector check is idempotent and cached — once a call has
returned, a second call with the same flags returns the same
enabled/disabled result with the cached state, producing no effects (no
re-count, no re-triggered fatal error). -/
theorem claim_C8_selector_check_cached (o : PhonebookOptions) (b : Bool)
    (st : SelectorState) (evs : List Event)
    (h : mbimcli_phonebook_options_enabled o initSelectorState = .ok b st evs) :
    mbimcli_phonebook_options_enabled o st = .ok b st [] := by
  unfold mbimcli_phonebook_options_enabled at h ⊢
  rw [if_neg (by decide)] at h
  by_cases hn : countActions o > 1
  · rw [if_pos hn] at h; exact absurd h (by simp)
  · rw [if_neg hn] at h
    injection h with hb hst hevs
    subst hst
    subst hb
    rfl

/-- Witness for C8 at a concrete single-action option state. -/
theorem claim_C8_selector_check_cached_witness :
    mbimcli_phonebook_options_enabled confOnly ⟨1, true⟩ = .ok true ⟨1, true⟩ [] :=
  claim_C8_selector_check_cached confOnly true ⟨1, true⟩ [] (by decide)

/-- C2: whenever more than one of the six action indicators is set, the
driver prints the too-many-actions error and aborts the process with
nonzero status, and no request submission of any kind occurs. -/
theorem claim_C2_multiple_actions_abort (o : PhonebookOptions) (present : Bool)
    (h : 1 < countActions o) :
    phonebookMain o present = ([.printErr tooManyActionsMsg, .exitFailure], none) ∧
    submissionOfMain (phonebookMain o present) = none := by
  have hsel : mbimcli_phonebook_options_enabled o initSelectorState =
      .fatal [.printErr tooManyActionsMsg, .exitFailure] := by
    unfold mbimcli_phonebook_options_enabled
    rw [if_neg (by decide), if_pos h]
  constructor
  · unfold phonebookMain
    rw [hsel]
  · unfold submissionOfMain phonebookMain
    rw [hsel]

/-- Witness for C2 with both the configuration and read-all indicators set. -/
theorem claim_C2_multiple_actions_abort_witness :
    phonebookMain { defaultOptions with configuration_flag := true, read_all_flag := true }
        true = ([.printErr tooManyActionsMsg, .exitFailure], none) ∧
    submissionOfMain
        (phonebookMain
          { defaultOptions with configuration_flag := true, read_all_flag := true } true) =
      none :=
  claim_C2_multiple_actions_abort
    { defaultOptions with configuration_flag := true, read_all_flag := true } true (by decide)

/-- C4: for the expected field counts of the write and update parsers,
`phonebook_write_input_parse` succeeds exactly when splitting the input
on commas yields exactly that many fields; fewer fields fail with the
missing-arguments error and more fields fail with the
too-many-arguments error. -/
theorem claim_C4_parse_exact_field_count (str : String) (n : Nat)
    (_hn : n = 2 ∨ n = 3) :
    ((∃ p, phonebook_write_input_parse n str = .ok p) ↔ (g_strsplit str).length = n) ∧
    ((g_strsplit str).length < n →
      phonebook_write_input_parse n str = .error (.missing, missingArgsMsg)) ∧
    ((g_strsplit str).length > n →
      phonebook_write_input_parse n str = .error (.tooMany, tooManyArgsMsg)) := by

  unfold phonebook_write_input_parse
  rcases lt_trichotomy (g_strsplit str).length n with hlt | heq | hgt
  · rw [if_neg (by omega), if_pos hlt]
    refine ⟨?_, fun _ => rfl, fun hc => by omega⟩
    constructor
    · rintro ⟨p, hp⟩
      exact absurd hp (by simp)
    · intro hc
      omega
  · rw [if_neg (by omega), if_neg (by omega)]
    refine ⟨?_, fun hc => by omega, fun hc => by omega⟩
    constructor
    · intro _
      exact heq
    · intro _
      exact ⟨_, rfl⟩
  · rw [if_pos hgt]
    refine ⟨?_, fun hc => by omega, fun _ => rfl⟩
    constructor
    · rintro ⟨p, hp⟩
      exact absurd hp (by simp)
    · intro hc
      omega

/-- Witness for C4: the spec's two failing examples against the write
parser. -/
theorem claim_C4_parse_exact_field_count_witness :
    phonebook_write_input_parse 2 "OnlyName" = .error (.missing, missingArgsMsg) ∧
    phonebook_write_input_parse 2 "A,B,C,D" = .error (.tooMany, tooManyArgsMsg) :=
  ⟨(claim_C4_parse_exact_field_count "OnlyName" 2 (Or.inl rfl)).2.1 (by decide),
   (claim_C4_parse_exact_field_count "A,B,C,D" 2 (Or.inl rfl)).2.2 (by decide)⟩

/-- C6: when the state-label lookup returns null for the decoded state
code, the configuration formatter renders the literal word `unknown`
for the state field, still printing the total entries, used entries,
max number length and max name length, and finalizes with success. -/
theorem claim_C6_unrecognized_state_renders_unknown (present : Bool)
    (lookup : Nat → Option String) (cfg : PhonebookConfiguration)
    (h : lookup cfg.state = none) :
    query_phonebook_configuration_ready lookup present (.ok cfg) =
      Event.printOut (configText "unknown" cfg) :: shutdown present true := by
  simp [query_phonebook_configuration_ready, h, validateUnknown]

/-- Witness for C6 at a concrete configuration and an everywhere-null
lookup. -/
theorem claim_C6_unrecognized_state_renders_unknown_witness :
    query_phonebook_configuration_ready (fun _ => none) true (.ok ⟨7, 100, 3, 20, 30⟩) =
      Event.printOut (configText "unknown" ⟨7, 100, 3, 20, 30⟩) :: shutdown true true :=
  claim_C6_unrecognized_state_renders_unknown true (fun _ => none) ⟨7, 100, 3, 20, 30⟩ rfl

/-- C1: every completion of the single in-flight command resolves as
the spec states — a transport failure prints the transport error and
finalizes with false, a protocol-parse failure prints the parse error
and finalizes with false, and a successful parse hands the payload to
the formatter and finalizes with true; the finalization boolean is the
single status each handler passes on. -/
theorem claim_C1_completion_resolution (present : Bool) (m : String)
    (lookup : Nat → Option String) (cfg : PhonebookConfiguration)
    (entry_count : Nat) (entries : List PhonebookEntry) :
    (set_phonebook_write_ready present (.transportError m) =
      .printErr (transportErrMsg m) :: shutdown present false) ∧
    (set_phonebook_delete_ready present (.transportError m) =
      .printErr (transportErrMsg m) :: shutdown present false) ∧
    (query_phonebook_read_ready present (.transportError m) =
      .printErr (transportErrMsg m) :: shutdown present false) ∧
    (query_phonebook_configuration_ready lookup present (.transportError m) =
      .printErr (transportErrMsg m) :: shutdown present false) ∧
    (set_phonebook_write_ready present (.parseError m) =
      .printErr (parseErrMsg m) :: shutdown present false) ∧
    (set_phonebook_delete_ready present (.parseError m) =
      .printErr (parseErrMsg m) :: shutdown present false) ∧
    (query_phonebook_read_ready present (.parseError m) =
      .printErr (parseErrMsg m) :: shutdown present false) ∧
    (query_phonebook_configuration_ready lookup present (.parseError m) =
      .printErr (parseErrMsg m) :: shutdown present false) ∧
    (doneStatuses (set_phonebook_write_ready present (.ok ())) = [true]) ∧
    (doneStatuses (set_phonebook_delete_ready present (.ok ())) = [true]) ∧
    (doneStatuses (query_phonebook_read_ready present (.ok (entry_count, entries))) =
      [true]) ∧
    (doneStatuses (query_phonebook_configuration_ready lookup present (.ok cfg)) =
      [true]) := by
  refine ⟨rfl, rfl, rfl, rfl, rfl, rfl, rfl, rfl, ?_, ?_, ?_, ?_⟩
  · simp [set_phonebook_write_ready, doneStatuses, doneOf, shutdown, context_free]
  · simp [set_phonebook_delete_ready, doneStatuses, doneOf, shutdown, context_free]
  · simp only [query_phonebook_read_ready, doneStatuses, List.filterMap_cons,
      List.filterMap_append, doneOf]
    rw [show (List.filterMap doneOf (printEntriesLoop entries entry_count)) =
      doneStatuses (printEntriesLoop entries entry_count) from rfl,
      doneStatuses_printEntriesLoop,
      show (List.filterMap doneOf (shutdown present true)) =
        doneStatuses (shutdown present true) from rfl,
      doneStatuses_shutdown]
    rfl
  · simp only [query_phonebook_configuration_ready]
    rw [show doneStatuses
        (Event.printOut (configText (validateUnknown (lookup cfg.state)) cfg) ::
          shutdown present true) =
      doneStatuses (shutdown present true) from rfl]
    exact doneStatuses_shutdown present true

/-- Helper for C7: iterating the read loop over exactly the length of
the entry array prints the entries in array order. -/
theorem printEntriesLoop_eq_map (entries : List PhonebookEntry) :
    printEntriesLoop entries entries.length =
      entries.map fun e => Event.printOut (renderEntry e) := by
  unfold printEntriesLoop
  induction entries with
  | nil => rfl
  | cons e rest ih =>
    rw [List.length_cons, List.range_succ_eq_map, List.map_cons, List.map_map]
    simp only [Function.comp_def, List.getD_cons_succ, List.getD_cons_zero]
    rw [List.map_cons]
    exact congrArg _ ih

/-- C3: each selected action builds the request with exactly the
parameters of the request table — configuration query with no
parameters; read by index with the index flag and the given index; read
all with the all flag and index 0; delete by index with the index flag
and the given index; delete all with the all flag and index 0; write
with the save-unused flag, index 0, the parsed number and name; update
with the save-at-index flag, the atoi-converted index, the parsed
number and name — and every submission carries the fixed timeout 10,
the session cancellable, and a single registered callback. -/
theorem claim_C3_request_builder_table (present : Bool) :
    (mbimcli_phonebook_run confOnly present =
      .submit ⟨.configurationQuery, 10, present, .configurationReady⟩) ∧
    (∀ i : Int, i ≠ 0 → mbimcli_phonebook_run (readOnly i) present =
      .submit ⟨.readQuery .index i, 10, present, .readReady⟩) ∧
    (mbimcli_phonebook_run readAllOnly present =
      .submit ⟨.readQuery .all 0, 10, present, .readReady⟩) ∧
    (∀ i : Int, i ≠ 0 → mbimcli_phonebook_run (deleteOnly i) present =
      .submit ⟨.deleteSet .index i, 10, present, .deleteReady⟩) ∧
    (mbimcli_phonebook_run deleteAllOnly present =
      .submit ⟨.deleteSet .all 0, 10, present, .deleteReady⟩) ∧
    (∀ s p, phonebook_write_input_parse 2 s = .ok p →
      mbimcli_phonebook_run (writeOnly s) present =
        .submit ⟨.writeSet .saveUnused 0 p.number p.name, 10, present, .writeReady⟩) ∧
    (∀ s p idxs, phonebook_write_input_parse 3 s = .ok p → p.index_str = some idxs →
      mbimcli_phonebook_run (updateOnly s) present =
        .submit ⟨.writeSet .saveIndex (atoi idxs) p.number p.name, 10,
          present, .writeReady⟩) := by
  refine ⟨rfl, ?_, rfl, ?_, rfl, ?_, ?_⟩
  · intro i hi
    simp [mbimcli_phonebook_run, readOnly, defaultOptions, hi]
  · intro i hi
    simp [mbimcli_phonebook_run, deleteOnly, defaultOptions, hi]
  · intro s p hp
    simp [mbimcli_phonebook_run, writeOnly, defaultOptions, hp]
  · intro s p idxs hp hidx
    simp [mbimcli_phonebook_run, updateOnly, defaultOptions, hp, hidx]

/-- Witness for C3 at concrete indices and input strings. -/
theorem claim_C3_request_builder_table_witness :
    mbimcli_phonebook_run (readOnly 5) true =
      .submit ⟨.readQuery .index 5, 10, true, .readReady⟩ ∧
    mbimcli_phonebook_run (deleteOnly 4) true =
      .submit ⟨.deleteSet .index 4, 10, true, .deleteReady⟩ ∧
    mbimcli_phonebook_run (writeOnly "Alice,555") true =
      .submit ⟨.writeSet .saveUnused 0 "555" "Alice", 10, true, .writeReady⟩ ∧
    mbimcli_phonebook_run (updateOnly "Alice,555,7") true =
      .submit ⟨.writeSet .saveIndex (atoi "7") "555" "Alice", 10, true, .writeReady⟩ :=
  ⟨(claim_C3_request_builder_table true).2.1 5 (by decide),
   (claim_C3_request_builder_table true).2.2.2.1 4 (by decide),
   (claim_C3_request_builder_table true).2.2.2.2.2.1 "Alice,555" ⟨"Alice", "555", none⟩ rfl,
   (claim_C3_request_builder_table true).2.2.2.2.2.2 "Alice,555,7"
     ⟨"Alice", "555", some "7"⟩ "7" rfl rfl⟩

/-- C5: when the third comma-separated field of an update invocation is
non-numeric, the parser forwards it unvalidated, atoi maps it to 0, and
the request is built with the save-at-index flag and index 0 rather
than failing. -/
theorem claim_C5_nonnumeric_update_index_zero (s : String) (p : ParsedInput)
    (idxs : String) (present : Bool)
    (hp : phonebook_write_input_parse 3 s = .ok p)
    (hidx : p.index_str = some idxs) (hnn : nonNumeric idxs) :
    mbimcli_phonebook_run (updateOnly s) present =
      .submit ⟨.writeSet .saveIndex 0 p.number p.name, 10, present, .writeReady⟩ := by
  have h0 : atoi idxs = 0 := atoi_eq_zero_of_nonNumeric idxs hnn
  simp [mbimcli_phonebook_run, updateOnly, defaultOptions, hp, hidx, h0]

/-- Witness for C5 with the non-numeric index field `x`. -/
theorem claim_C5_nonnumeric_update_index_zero_witness :
    mbimcli_phonebook_run (updateOnly "Alice,555,x") true =
      .submit ⟨.writeSet .saveIndex 0 "555" "Alice", 10, true, .writeReady⟩ :=
  claim_C5_nonnumeric_update_index_zero "Alice,555,x" ⟨"Alice", "555", some "x"⟩ "x" true
    rfl rfl (by decide)

/-- C7: a successfully parsed read response is rendered as the header,
the entry count, and then one block per entry in exactly the order
returned by the device, each with the literal index, number and name;
the handler then finalizes with success. -/
theorem claim_C7_read_renders_in_order (present : Bool) (entry_count : Nat)
    (entries : List PhonebookEntry) (h : entry_count = entries.length) :
    query_phonebook_read_ready present (.ok (entry_count, entries)) =
      Event.printOut readOkMsg :: Event.printOut (countLine entry_count) ::
        ((entries.map fun e => Event.printOut (renderEntry e)) ++ shutdown present true) := by
  subst h
  simp only [query_phonebook_read_ready]
  rw [printEntriesLoop_eq_map]

/-- Witness for C7: the spec's two-entry round-trip example. -/
theorem claim_C7_read_renders_in_order_witness :
    query_phonebook_read_ready true
        (.ok (2, [⟨1, "555-1000", "Alice"⟩, ⟨2, "555-2000", "Bob"⟩])) =
      Event.printOut readOkMsg :: Event.printOut (countLine 2) ::
        (([⟨1, "555-1000", "Alice"⟩, ⟨2, "555-2000", "Bob"⟩].map
            fun e => Event.printOut (renderEntry e)) ++ shutdown true true) :=
  claim_C7_read_renders_in_order true 2 [⟨1, "555-1000", "Alice"⟩, ⟨2, "555-2000", "Bob"⟩] rfl

/-- Helper for C9: event counts of one shutdown call. -/
theorem shutdown_counts (present b : Bool) :
    (doneStatuses (shutdown present b)).length = 1 ∧
    countEv isUnrefDevice (shutdown present b) = 1 ∧
    countEv isRefDevice (shutdown present b) = 0 ∧
    countEv isRefCancellable (shutdown present b) = 0 ∧
    countEv isUnrefCancellable (shutdown present b) = (if present then 1 else 0) := by
  cases present <;>
    simp [shutdown, context_free, doneStatuses, doneOf, countEv, List.countP_cons,
      isUnrefDevice, isRefDevice, isRefCancellable, isUnrefCancellable]

/-- Helper for C9: a handler trace is print events followed by exactly
one shutdown call. -/
theorem invokeCallback_shape (lookup : Nat → Option String) (present : Bool)
    (cb : Callback) (c : Completion (callbackPayload cb)) :
    ∃ outs b, invokeCallback lookup present cb c = outs ++ shutdown present b ∧
      ∀ e ∈ outs, (∃ m, e = Event.printErr m) ∨ (∃ m, e = Event.printOut m) := by
  cases cb <;> cases c <;>
    first
    | exact ⟨[.printErr _], false, rfl, by simp⟩
    | exact ⟨[.printOut _], true, rfl, by simp⟩
    | refine ⟨Event.printOut readOkMsg :: Event.printOut (countLine _) ::
        printEntriesLoop _ _, true, rfl, ?_⟩
      intro e he
      simp only [List.mem_cons] at he
      rcases he with rfl | rfl | he
      · exact Or.inr ⟨_, rfl⟩
      · exact Or.inr ⟨_, rfl⟩
      · simp only [printEntriesLoop, List.mem_map] at he
        obtain ⟨i, _, hi⟩ := he
        exact Or.inr ⟨_, hi.symm⟩

/-- Helper for C9: event counts of any trace made of print events
followed by one shutdown call — exactly one finalization, one device
release, a cancellable release exactly when one was acquired, and no
acquisitions. -/
theorem counts_of_shape (present b : Bool) (outs : List Event)
    (ho : ∀ e ∈ outs, (∃ m, e = Event.printErr m) ∨ (∃ m, e = Event.printOut m)) :
    (doneStatuses (outs ++ shutdown present b)).length = 1 ∧
    countEv isUnrefDevice (outs ++ shutdown present b) = 1 ∧
    countEv isRefDevice (outs ++ shutdown present b) = 0 ∧
    countEv isRefCancellable (outs ++ shutdown present b) = 0 ∧
    countEv isUnrefCancellable (outs ++ shutdown present b) =
      (if present then 1 else 0) := by
  have hd : doneStatuses outs = [] := by
    rw [doneStatuses, List.filterMap_eq_nil_iff]
    intro e he
    rcases ho e he with ⟨m, rfl⟩ | ⟨m, rfl⟩ <;> rfl
  have hc : ∀ p : Event → Bool, (∀ m, p (Event.printErr m) = false) →
      (∀ m, p (Event.printOut m) = false) → countEv p outs = 0 := by
    intro p h1 h2
    rw [countEv, List.countP_eq_zero]
    intro e he
    rcases ho e he with ⟨m, rfl⟩ | ⟨m, rfl⟩ <;> simp [h1, h2]
  obtain ⟨s1, s2, s3, s4, s5⟩ := shutdown_counts present b
  refine ⟨?_, ?_, ?_, ?_, ?_⟩
  · rw [doneStatuses_append, hd]
    simpa using s1
  · rw [countEv_append, hc isUnrefDevice (fun m => rfl) (fun m => rfl), s2]
  · rw [countEv_append, hc isRefDevice (fun m => rfl) (fun m => rfl), s3]
  · rw [countEv_append, hc isRefCancellable (fun m => rfl) (fun m => rfl), s4]
  · rw [countEv_append, hc isUnrefCancellable (fun m => rfl) (fun m => rfl), s5]
    exact Nat.zero_add _

/-- Helper for C9: trace of a run that submitted a request. -/
theorem fullTrace_submit (lookup : Nat → Option String) (o : PhonebookOptions)
    (present : Bool) (c : (cb : Callback) → Completion (callbackPayload cb))
    (s : Submission) (hr : mbimcli_phonebook_run o present = .submit s) :
    fullTrace lookup o present c =
      acquireEvents present ++ invokeCallback lookup present s.cb (c s.cb) := by
  unfold fullTrace
  rw [hr]

/-- Helper for C9: trace of a run that failed input parsing. -/
theorem fullTrace_parseFailed (lookup : Nat → Option String) (o : PhonebookOptions)
    (present : Bool) (c : (cb : Callback) → Completion (callbackPayload cb))
    (m : String) (hr : mbimcli_phonebook_run o present = .parseFailed m) :
    fullTrace lookup o present c =
      acquireEvents present ++ ([Event.printErr m] ++ shutdown present false) := by
  unfold fullTrace
  rw [hr]
  rfl

/-- C9: on every exit path after the operation starts — success,
protocol-decode failure, transport failure, or input-parse failure —
finalization is reached exactly once, the device reference acquired at
operation start is released exactly once, and exactly as many
cancellable references are released as were acquired. -/
theorem claim_C9_finalization_once_refs_released (lookup : Nat → Option String)
    (o : PhonebookOptions) (present : Bool)
    (c : (cb : Callback) → Completion (callbackPayload cb))
    (h : 1 ≤ countActions o) :
    (doneStatuses (fullTrace lookup o present c)).length = 1 ∧
    countEv isRefDevice (fullTrace lookup o present c) = 1 ∧
    countEv isUnrefDevice (fullTrace lookup o present c) = 1 ∧
    countEv isRefCancellable (fullTrace lookup o present c) =
      countEv isUnrefCancellable (fullTrace lookup o present c) := by
  have hacq1 : doneStatuses (acquireEvents present) = [] := by cases present <;> rfl
  have hacq2 : countEv isRefDevice (acquireEvents present) = 1 := by cases present <;> rfl
  have hacq3 : countEv isUnrefDevice (acquireEvents present) = 0 := by
    cases present <;> rfl
  have hacq4 : countEv isRefCancellable (acquireEvents present) =
      (if present then 1 else 0) := by cases present <;> rfl
  have hacq5 : countEv isUnrefCancellable (acquireEvents present) = 0 := by
    cases present <;> rfl
  cases hr : mbimcli_phonebook_run o present with
  | noAction => exact absurd (countActions_eq_zero_of_noAction o present hr) (by omega)
  | parseFailed m =>
    rw [fullTrace_parseFailed lookup o present c m hr]
    obtain ⟨k1, k2, k3, k4, k5⟩ :=
      counts_of_shape present false [Event.printErr m] (by simp)
    refine ⟨?_, ?_, ?_, ?_⟩
    · rw [doneStatuses_append, hacq1, List.nil_append, k1]
    · rw [countEv_append, hacq2, k3]
    · rw [countEv_append, hacq3, k2]
    · rw [countEv_append isRefCancellable (acquireEvents present),
        countEv_append isUnrefCancellable (acquireEvents present), hacq4, hacq5, k4, k5]
      simp
  | submit s =>
    rw [fullTrace_submit lookup o present c s hr]
    obtain ⟨outs, b, heq, ho⟩ := invokeCallback_shape lookup present s.cb (c s.cb)
    rw [heq]
    obtain ⟨k1, k2, k3, k4, k5⟩ := counts_of_shape present b outs ho
    refine ⟨?_, ?_, ?_, ?_⟩
    · rw [doneStatuses_append, hacq1, List.nil_append, k1]
    · rw [countEv_append, hacq2, k3]
    · rw [countEv_append, hacq3, k2]
    · rw [countEv_append isRefCancellable (acquireEvents present),
        countEv_append isUnrefCancellable (acquireEvents present), hacq4, hacq5, k4, k5]
      simp

/-- Witness for C9: delete-all with a simulated transport timeout. -/
theorem claim_C9_finalization_once_refs_released_witness :
    (doneStatuses (fullTrace (fun _ => none) deleteAllOnly true
        (fun _ => Completion.transportError "timeout"))).length = 1 ∧
    countEv isRefDevice (fullTrace (fun _ => none) deleteAllOnly true
        (fun _ => Completion.transportError "timeout")) = 1 ∧
    countEv isUnrefDevice (fullTrace (fun _ => none) deleteAllOnly true
        (fun _ => Completion.transportError "timeout")) = 1 ∧
    countEv isRefCancellable (fullTrace (fun _ => none) deleteAllOnly true
        (fun _ => Completion.transportError "timeout")) =
      countEv isUnrefCancellable (fullTrace (fun _ => none) deleteAllOnly true
        (fun _ => Completion.transportError "timeout")) :=
  claim_C9_finalization_once_refs_released (fun _ => none) deleteAllOnly true
    (fun _ => Completion.transportError "timeout") (by decide)
